import Mathlib

set_option autoImplicit false

/-!
Shallow embedding of the realtime-audio-host repository (sushi) for checking
its natural-language specification.  Each definition is translated from the
file of the repository named in its doc comment; components whose
implementation files are not part of `src/` (only their unit tests are) are
modelled from the specification and marked as such.

Conventions: C++ `float`/`double` values are idealised as `Rat` where the
code only moves them around (no arithmetic), and as `Real` where the claim
involves transcendental functions; `std::vector` becomes `List`;
`std::optional` becomes `Option`; `ObjectId` becomes `Nat`.
-/

namespace Sushi

/-! ## Processor state bundle (src/src/library/processor_state.cpp) -/

/-- The state bundle held by `ProcessorState`
(src/src/library/processor_state.cpp): an optional current program, an
optional bypass flag, and the recorded parameter and property changes. -/
structure ProcessorState where
  program : Option Int
  bypassed : Option Bool
  parameter_changes : List (Nat × Rat)
  property_changes : List (Nat × String)
  deriving Repr, DecidableEq

/-- A default-constructed `ProcessorState`: every member empty. -/
def ProcessorState.empty : ProcessorState := ⟨none, none, [], []⟩

/-- `ProcessorState::serialize` (processor_state.cpp lines 27-30): the body is
`return std::vector<std::byte>();` — an empty byte vector, for every state. -/
def ProcessorState.serialize (_ : ProcessorState) : List Nat := []

/-- `ProcessorState::deserialize` (processor_state.cpp lines 32-35): the body
is `return false;` — it rejects every input and touches no member. -/
def ProcessorState.deserialize (s : ProcessorState) (_ : List Nat) : Bool × ProcessorState :=
  (false, s)

/-- `ProcessorState::set_program`. -/
def ProcessorState.set_program (s : ProcessorState) (program_id : Int) : ProcessorState :=
  { s with program := some program_id }

/-- `ProcessorState::set_bypass`. -/
def ProcessorState.set_bypass (s : ProcessorState) (enabled : Bool) : ProcessorState :=
  { s with bypassed := some enabled }

/-- `ProcessorState::add_parameter_change`: appends to `_parameter_changes`. -/
def ProcessorState.add_parameter_change (s : ProcessorState) (parameter_id : Nat)
    (value : Rat) : ProcessorState :=
  { s with parameter_changes := s.parameter_changes ++ [(parameter_id, value)] }

/-- `ProcessorState::add_property_change`: appends to `_property_changes`. -/
def ProcessorState.add_property_change (s : ProcessorState) (property_id : Nat)
    (value : String) : ProcessorState :=
  { s with property_changes := s.property_changes ++ [(property_id, value)] }

/-- `ProcessorState::parameters` accessor. -/
def ProcessorState.parameters (s : ProcessorState) : List (Nat × Rat) := s.parameter_changes

/-- `ProcessorState::properties` accessor. -/
def ProcessorState.properties (s : ProcessorState) : List (Nat × String) := s.property_changes

/-- The realtime copy of a state bundle, `RtState`
(src/src/library/processor_state.cpp lines 77-105): bypass flag and
parameter changes only. -/
structure RtState where
  bypassed : Option Bool
  parameter_changes : List (Nat × Rat)
  deriving Repr, DecidableEq

/-- `RtState::RtState(const ProcessorState&)` (processor_state.cpp lines
79-83): copies the bypass flag and the parameter changes of the bundle; the
program and the property changes are not carried over. -/
def RtState.ofProcessorState (state : ProcessorState) : RtState :=
  ⟨state.bypassed, state.parameters⟩

/-! ## MIDI controller command surface
(src/src/engine/controller/midi_controller.cpp) -/

/-- Status of the external `MidiDispatcher` operations.  The dispatcher's
implementation is outside `src/`; only the distinction between `OK` and any
failure is observable in `midi_controller.cpp`, so one generic failure
constructor stands for all of its failure codes. -/
inductive MidiDispatcherStatus where
  | OK
  | FAILED
  deriving Repr, DecidableEq

/-- `EventStatus` values produced by the posted lambdas in
`midi_controller.cpp` (`HANDLED_OK` on dispatcher success, `ERROR`
otherwise). -/
inductive EventStatus where
  | HANDLED_OK
  | ERROR
  deriving Repr, DecidableEq

/-- `ext::ControlStatus`, the status enumeration of the controller command
surface (spec section 4.6: ok, error, unsupported, not found, out of range,
invalid arguments). -/
inductive ControlStatus where
  | OK
  | ERROR
  | UNSUPPORTED_OPERATION
  | NOT_FOUND
  | OUT_OF_RANGE
  | INVALID_ARGUMENTS
  deriving Repr, DecidableEq

/-- Outcome of one mutating `MidiController` command: the status returned
synchronously to the caller, and the `EventStatus` that the posted
`LambdaEvent` will later produce when the event dispatcher runs it. -/
structure MidiCommandOutcome where
  returned : ControlStatus
  lambda_result : EventStatus
  deriving Repr, DecidableEq

/-- The shared tail of every posted lambda in `midi_controller.cpp`:
`HANDLED_OK` when the dispatcher operation returns `OK`, `ERROR` otherwise. -/
def lambda_result_of (status : MidiDispatcherStatus) : EventStatus :=
  if status = MidiDispatcherStatus.OK then EventStatus.HANDLED_OK else EventStatus.ERROR

/-- `MidiController::connect_kbd_input_to_track` (midi_controller.cpp lines
225-258).  `kb_status` and `raw_status` stand for the results of the external
dispatcher calls `connect_kb_to_track` and `connect_raw_midi_to_track`; the
lambda picks one according to `raw_midi`.  The function posts the lambda and
returns `ControlStatus::OK` unconditionally. -/
def MidiController.connect_kbd_input_to_track (_track_id : Int) (_channel : Int)
    (_port : Int) (raw_midi : Bool)
    (kb_status raw_status : MidiDispatcherStatus) : MidiCommandOutcome :=
  ⟨ControlStatus.OK, lambda_result_of (if raw_midi then raw_status else kb_status)⟩

/-- `MidiController::connect_kbd_output_from_track` (lines 260-284). -/
def MidiController.connect_kbd_output_from_track (_track_id : Int) (_channel : Int)
    (_port : Int) (status : MidiDispatcherStatus) : MidiCommandOutcome :=
  ⟨ControlStatus.OK, lambda_result_of status⟩

/-- `MidiController::connect_cc_to_parameter` (lines 286-321). -/
def MidiController.connect_cc_to_parameter (_processor_id _parameter_id : Int)
    (_channel _port _cc_number : Int) (_min_range _max_range : Rat)
    (_relative_mode : Bool) (status : MidiDispatcherStatus) : MidiCommandOutcome :=
  ⟨ControlStatus.OK, lambda_result_of status⟩

/-- `MidiController::connect_pc_to_processor` (lines 323-348). -/
def MidiController.connect_pc_to_processor (_processor_id : Int) (_channel _port : Int)
    (status : MidiDispatcherStatus) : MidiCommandOutcome :=
  ⟨ControlStatus.OK, lambda_result_of status⟩

/-- `MidiController::disconnect_kbd_input` (lines 350-384). -/
def MidiController.disconnect_kbd_input (_track_id : Int) (_channel _port : Int)
    (raw_midi : Bool) (kb_status raw_status : MidiDispatcherStatus) : MidiCommandOutcome :=
  ⟨ControlStatus.OK, lambda_result_of (if raw_midi then raw_status else kb_status)⟩

/-- `MidiController::disconnect_kbd_output` (lines 386-408). -/
def MidiController.disconnect_kbd_output (_track_id : Int) (_channel _port : Int)
    (status : MidiDispatcherStatus) : MidiCommandOutcome :=
  ⟨ControlStatus.OK, lambda_result_of status⟩

/-- `MidiController::disconnect_cc` (lines 410-434). -/
def MidiController.disconnect_cc (_processor_id : Int) (_channel _port _cc_number : Int)
    (status : MidiDispatcherStatus) : MidiCommandOutcome :=
  ⟨ControlStatus.OK, lambda_result_of status⟩

/-- `MidiController::disconnect_pc` (lines 436-461). -/
def MidiController.disconnect_pc (_processor_id : Int) (_channel _port : Int)
    (status : MidiDispatcherStatus) : MidiCommandOutcome :=
  ⟨ControlStatus.OK, lambda_result_of status⟩

/-- `MidiController::disconnect_all_cc_from_processor` (lines 463-482). -/
def MidiController.disconnect_all_cc_from_processor (_processor_id : Int)
    (status : MidiDispatcherStatus) : MidiCommandOutcome :=
  ⟨ControlStatus.OK, lambda_result_of status⟩

/-- `MidiController.disconnect_all_pc_from_processor` (lines 484-503). -/
def MidiController.disconnect_all_pc_from_processor (_processor_id : Int)
    (status : MidiDispatcherStatus) : MidiCommandOutcome :=
  ⟨ControlStatus.OK, lambda_result_of status⟩

/-! ## Transport (engine/transport.cpp is not part of src/; only
src/test/unittests/engine/transport_test.cpp is).  The transport is
modelled from the spec, sections 3 and 4.4. -/

/-- Playing mode of the transport (spec section 3). -/
inductive PlayingMode where
  | STOPPED
  | PLAYING
  | RECORDING
  deriving Repr, DecidableEq

/-- Result of `Transport::current_state_change` (spec section 4.4). -/
inductive PlayStateChange where
  | UNCHANGED
  | STARTING
  | STOPPING
  deriving Repr, DecidableEq

/-- A mode counts as playing when it is `PLAYING` or `RECORDING`
(spec section 4.4: beats advance iff the mode is playing or recording). -/
def PlayingMode.is_playing : PlayingMode → Bool
  | PlayingMode.STOPPED => false
  | PlayingMode.PLAYING => true
  | PlayingMode.RECORDING => true

/-- Modelled from the spec: the transport state (spec section 3).  The
implementation file engine/transport.cpp is missing from src/.  Tempo is in
beats per minute; `beat_count` is the musical position in beats;
`new_playmode` holds a requested mode that takes effect at the next
`set_time` call, which is how a mode change becomes observable for exactly
the one following block.  Sync modes other than internal, the wall-clock
time and the latency offset are outside the claims and are not modelled. -/
structure Transport where
  sample_rate : Rat
  tempo : Rat
  time_sig_num : Int
  time_sig_den : Int
  playmode : PlayingMode
  new_playmode : PlayingMode
  state_change : PlayStateChange
  sample_count : Int
  beat_count : Rat
  deriving Repr, DecidableEq

/-- Modelled from the spec: a freshly constructed transport at position zero,
stopped, with the default tempo of 120 bpm in 4/4 time. -/
def Transport.init (sample_rate : Rat) : Transport :=
  ⟨sample_rate, 120, 4, 4, PlayingMode.STOPPED, PlayingMode.STOPPED,
   PlayStateChange.UNCHANGED, 0, 0⟩

/-- `beats_per_bar = time_sig.numerator × 4 / time_sig.denominator`
(spec section 4.4). -/
def Transport.beats_per_bar (t : Transport) : Rat :=
  (t.time_sig_num : Rat) * 4 / (t.time_sig_den : Rat)

/-- Modelled from the spec: `set_sample_rate`. -/
def Transport.set_sample_rate (t : Transport) (rate : Rat) : Transport :=
  { t with sample_rate := rate }

/-- Modelled from the spec: `set_tempo` applied immediately (the second
argument mirrors the bar-boundary flag of the call sites; the claims only use
immediate changes). -/
def Transport.set_tempo (t : Transport) (tempo : Rat) (_ : Bool) : Transport :=
  { t with tempo := tempo }

/-- Modelled from the spec: `set_time_signature` applied immediately. -/
def Transport.set_time_signature (t : Transport) (num den : Int) (_ : Bool) : Transport :=
  { t with time_sig_num := num, time_sig_den := den }

/-- Modelled from the spec: `set_playing_mode` requests a mode that takes
effect at the next block (`set_time` call). -/
def Transport.set_playing_mode (t : Transport) (mode : PlayingMode) (_ : Bool) : Transport :=
  { t with new_playmode := mode }

/-- Modelled from the spec, section 4.4: `set_time` moves the transport to a
new sample position (one block boundary).  The requested playing mode takes
effect; the state change observable reports `STARTING`/`STOPPING` when the
effective playing flag flips, `UNCHANGED` otherwise; the beat position
advances by `elapsed_samples × tempo / (60 × sample_rate)` iff the mode is
playing — the per-block formula with the elapsed samples in place of one
chunk. -/
def Transport.set_time (t : Transport) (_time : Rat) (samples : Int) : Transport :=
  { t with
    sample_count := samples
    playmode := t.new_playmode
    state_change :=
      if t.playmode.is_playing = t.new_playmode.is_playing then PlayStateChange.UNCHANGED
      else if t.new_playmode.is_playing then PlayStateChange.STARTING
      else PlayStateChange.STOPPING
    beat_count :=
      if t.new_playmode.is_playing then
        t.beat_count + ((samples - t.sample_count : Int) : Rat) * t.tempo / (60 * t.sample_rate)
      else t.beat_count }

/-- `Transport::current_beats`. -/
def Transport.current_beats (t : Transport) : Rat := t.beat_count

/-- `Transport::current_bar_start_beats`: the last bar boundary at or below
the current beat position (spec section 4.4 bar tracking). -/
def Transport.current_bar_start_beats (t : Transport) : Rat :=
  t.beats_per_bar * ⌊t.beat_count / t.beats_per_bar⌋

/-- `Transport::current_bar_beats`: position within the current bar. -/
def Transport.current_bar_beats (t : Transport) : Rat :=
  t.beat_count - t.current_bar_start_beats

/-- `Transport::current_state_change`. -/
def Transport.current_state_change (t : Transport) : PlayStateChange := t.state_change

/-- The list of transport states reached after each `set_time` call of a
sequence of `(time, sample position)` pairs. -/
def Transport.run (t : Transport) : List (Rat × Int) → List Transport
  | [] => []
  | (time, sp) :: rest => (t.set_time time sp) :: (t.set_time time sp).run rest

/-- `nondecreasing_from a l` holds when the integer list `l` is monotonically
non-decreasing and starts at or above `a`. -/
def nondecreasing_from (a : Int) : List Int → Bool
  | [] => true
  | b :: rest => if a ≤ b then nondecreasing_from b rest else false

/-! ## Realtime events and track behaviour (engine/track.cpp and
library/rt_event.h are not part of src/; only
src/test/unittests/engine/track_test.cpp is).  Modelled from the spec,
sections 3 and 4.2. -/

/-- Modelled from the spec: the realtime event record (spec section 3), as a
tagged union.  Only the payloads the claims exercise are included: keyboard
events (note on/off/aftertouch: channel, note, velocity), the typed float
parameter change, and wrapped raw MIDI. -/
inductive RtEvent where
  | note_on (processor_id : Nat) (sample_offset : Nat) (channel note : Nat) (velocity : Rat)
  | note_off (processor_id : Nat) (sample_offset : Nat) (channel note : Nat) (velocity : Rat)
  | note_aftertouch (processor_id : Nat) (sample_offset : Nat) (channel note : Nat)
      (value : Rat)
  | float_parameter_change (processor_id : Nat) (sample_offset : Nat) (param_id : Nat)
      (value : Rat)
  | wrapped_midi (processor_id : Nat) (sample_offset : Nat) (data : List Nat)
  deriving Repr, DecidableEq

/-- The target processor id carried by an event. -/
def RtEvent.processor_id : RtEvent → Nat
  | RtEvent.note_on pid _ _ _ _ => pid
  | RtEvent.note_off pid _ _ _ _ => pid
  | RtEvent.note_aftertouch pid _ _ _ _ => pid
  | RtEvent.float_parameter_change pid _ _ _ => pid
  | RtEvent.wrapped_midi pid _ _ => pid

/-- The same event re-tagged with a new processor id; every other field is
kept. -/
def RtEvent.retag (e : RtEvent) (new_id : Nat) : RtEvent :=
  match e with
  | RtEvent.note_on _ off ch note vel => RtEvent.note_on new_id off ch note vel
  | RtEvent.note_off _ off ch note vel => RtEvent.note_off new_id off ch note vel
  | RtEvent.note_aftertouch _ off ch note v => RtEvent.note_aftertouch new_id off ch note v
  | RtEvent.float_parameter_change _ off id v => RtEvent.float_parameter_change new_id off id v
  | RtEvent.wrapped_midi _ off data => RtEvent.wrapped_midi new_id off data

/-- `is_keyboard_event`: note on/off/aftertouch (the keyboard payloads the
LV2 wrapper queues). -/
def RtEvent.is_keyboard : RtEvent → Bool
  | RtEvent.note_on _ _ _ _ _ => true
  | RtEvent.note_off _ _ _ _ _ => true
  | RtEvent.note_aftertouch _ _ _ _ _ => true
  | _ => false

/-- Modelled from the spec, section 4.2 event forwarding: an event produced
by an inner processor of a track is re-tagged with the track's own processor
id before it is forwarded on the track's event output FIFO. -/
def Track.output_event (track_id : Nat) (e : RtEvent) : RtEvent :=
  e.retag track_id

/-- Modelled from the spec: all events emitted by the inner processors over
one block are forwarded on the track's event output FIFO, each re-tagged
with the track's id, in order. -/
def Track.forward_block_events (track_id : Nat) (inner_events : List RtEvent) :
    List RtEvent :=
  inner_events.map (Track.output_event track_id)

/-- Modelled from the spec, section 4.2 chain management: `add(processor)`
appends the processor to the ordered chain.  Processors are represented by
their ids. -/
def Track.add (chain : List Nat) (p : Nat) : List Nat := chain ++ [p]

/-- Modelled from the spec: `add(processor, before_id)` inserts the
processor immediately before the processor whose id is `before_id`; `none`
models the failure return when no processor has that id. -/
def Track.add_before (chain : List Nat) (p before_id : Nat) : Option (List Nat) :=
  match chain with
  | [] => none
  | q :: rest =>
    if q = before_id then some (p :: q :: rest)
    else (Track.add_before rest p before_id).map (fun c => q :: c)

/-- Modelled from the spec: `remove(id)` removes the processor with the
given id and reports success, or reports not-found and leaves the chain
unchanged. -/
def Track.remove (chain : List Nat) (id : Nat) : Bool × List Nat :=
  match chain with
  | [] => (false, [])
  | q :: rest =>
    if q = id then (true, rest)
    else
      let r := Track.remove rest id
      (r.1, q :: r.2)

/-! ## JACK audio frontend process entry
(src/src/audio_frontends/jack_frontend.cpp) -/

/-- The compile-time chunk size (`AUDIO_CHUNK_SIZE`), 64 frames. -/
def AUDIO_CHUNK_SIZE : Nat := 64

/-- The sample offsets at which `JackFrontend::process_audio`
(jack_frontend.cpp lines 201-230) invokes `_engine->process_chunk`: the loop
`for (frames = 0; frames < nframes; frames += AUDIO_CHUNK_SIZE)`. -/
def JackFrontend.chunk_offsets (nframes : Nat) : List Nat :=
  (List.range (nframes / AUDIO_CHUNK_SIZE)).map (fun i => i * AUDIO_CHUNK_SIZE)

/-- `JackFrontend::internal_process_callback` (jack_frontend.cpp lines
167-178): when `nframes < 64 || nframes % 64` it logs a warning, skips the
block and returns 0; otherwise it processes the audio in chunks and returns
0.  The result is the integer code returned to JACK paired with the offsets
of the chunk renders performed. -/
def JackFrontend.internal_process_callback (nframes : Nat) : Int × List Nat :=
  if nframes < 64 ∨ nframes % 64 ≠ 0 then (0, [])
  else (0, JackFrontend.chunk_offsets nframes)

/-! ## LV2 plugin wrapper (src/src/library/lv2/lv2_wrapper.cpp) -/

/-- The play state of the LV2 model referenced by
`Lv2Wrapper::process_audio` (only `PAUSE_REQUESTED` and `PAUSED` are tested
there; `RUNNING` stands for every other state, the `default:` branch). -/
inductive PlayState where
  | RUNNING
  | PAUSE_REQUESTED
  | PAUSED
  deriving Repr, DecidableEq

/-- The observable state of an `Lv2Wrapper`: the bypass flag, the LV2
model's play state, the control-port values (indexed by the port index that
doubles as the parameter id, see `_register_parameters`), the incoming
realtime event queue (which holds only keyboard events; the fixed capacity
of the ring buffer is not modelled, the claims do not depend on overflow),
and the events transferred so far into the plugin's LV2 event buffer by
`_process_midi_input`. -/
structure Lv2Wrapper where
  bypassed : Bool
  play_state : PlayState
  control_values : Nat → Rat
  incoming_event_queue : List RtEvent
  delivered_midi : List RtEvent

/-- `Lv2Wrapper::process_event` (lv2_wrapper.cpp lines 480-504): a
`FLOAT_PARAMETER_CHANGE` is applied immediately — the target port's control
value is set, with no check of the bypass flag; a keyboard event is pushed
on the incoming event queue; any other event is ignored (logged). -/
def Lv2Wrapper.process_event (w : Lv2Wrapper) (e : RtEvent) : Lv2Wrapper :=
  match e with
  | RtEvent.float_parameter_change _ _ id v =>
    { w with control_values := fun i => if i = id then v else w.control_values i }
  | e =>
    if e.is_keyboard then { w with incoming_event_queue := w.incoming_event_queue ++ [e] }
    else w

/-- `Lv2Wrapper::process_audio` (lv2_wrapper.cpp lines 506-535).  When
bypassed: `bypass_process` forwards the input (modelled for matching channel
configurations) and `_flush_event_queue` (lines 746-753) pops and discards
every queued event.  Otherwise a `PAUSE_REQUESTED` play state becomes
`PAUSED` and the block is still rendered, a `PAUSED` state returns without
writing the output (`none`), and in the running case the queued events are
written into the plugin's event buffer (`_process_midi_input`) and the
plugin renders the block; `plugin_run` stands for the external
`lilv_instance_run` of the loaded plugin. -/
def Lv2Wrapper.process_audio (w : Lv2Wrapper) (in_buffer : List Rat)
    (plugin_run : List Rat → List RtEvent → List Rat) :
    Lv2Wrapper × Option (List Rat) :=
  if w.bypassed then
    ({ w with incoming_event_queue := [] }, some in_buffer)
  else
    match w.play_state with
    | PlayState.PAUSED => (w, none)
    | ps =>
      let w1 := if ps = PlayState.PAUSE_REQUESTED then { w with play_state := PlayState.PAUSED }
                else w
      ({ w1 with
          incoming_event_queue := []
          delivered_midi := w1.delivered_midi ++ w1.incoming_event_queue },
       some (plugin_run in_buffer w1.incoming_event_queue))

/-- The transport of the 4/4 timeline scenario after its setup calls
(transport_test.cpp, TestTimeline44Time): sample rate 32768, 4/4 time,
tempo 120, playing, time set to zero. -/
def c3_transport_0 : Transport :=
  (((((Transport.init 48000).set_sample_rate 32768).set_time_signature 4 4
      false).set_tempo 120 false).set_playing_mode PlayingMode.PLAYING false).set_time 0 0

/-- The 4/4 scenario transport after `set_time` to one second (sample
position 32768). -/
def c3_transport_1 : Transport := c3_transport_0.set_time 1 32768

/-- The 4/4 scenario transport after a further `set_time` to 2.5 seconds
(sample position 81920). -/
def c3_transport_2 : Transport := c3_transport_1.set_time (5/2) 81920

/-! ## Stereo pan law (engine/track.cpp is not part of src/; only the unit
test TesPanAndGainCalculation in track_test.cpp pins concrete values of
`calc_l_r_gain`). -/

/-- Modelled from the spec, section 4.2: the stereo pan law the spec states
for the free function `calc_l_r_gain` of engine/track.cpp:
`left = g × cos((pan+1)π/4) × √2`, `right = g × sin((pan+1)π/4) × √2`.
Audio gains are idealised as real numbers. -/
noncomputable def calc_l_r_gain (gain pan : Real) : Real × Real :=
  (gain * Real.cos ((pan + 1) * Real.pi / 4) * Real.sqrt 2,
   gain * Real.sin ((pan + 1) * Real.pi / 4) * Real.sqrt 2)

/-- The assertions of the repository unit test `TesPanAndGainCalculation`
(track_test.cpp lines 209-224) on a candidate pan-law `f`: the
`EXPECT_FLOAT_EQ` rows idealised as exact equality and the `EXPECT_NEAR`
rows with their 0.01 tolerance — center pan at gain 5 gives (5, 5), hard
right at gain 1 gives (0, ≈1.41), mid left at gain 1 gives (≈1.2, 0.5). -/
def TesPanAndGainCalculation (f : Real → Real → Real × Real) : Prop :=
  (f 5 0).1 = 5 ∧ (f 5 0).2 = 5 ∧
  (f 1 1).1 = 0 ∧ |(f 1 1).2 - 1.41| ≤ 0.01 ∧
  |(f 1 (-0.5)).1 - 1.2| ≤ 0.01 ∧ (f 1 (-0.5)).2 = 0.5

/-! ## Helper lemmas -/

lemma Transport.set_time_sample_rate (t : Transport) (time : Rat) (sp : Int) :
    (t.set_time time sp).sample_rate = t.sample_rate := rfl

lemma Transport.set_time_tempo (t : Transport) (time : Rat) (sp : Int) :
    (t.set_time time sp).tempo = t.tempo := rfl

lemma Transport.set_time_beats_per_bar (t : Transport) (time : Rat) (sp : Int) :
    (t.set_time time sp).beats_per_bar = t.beats_per_bar := rfl

lemma Transport.set_time_sample_count (t : Transport) (time : Rat) (sp : Int) :
    (t.set_time time sp).sample_count = sp := rfl

lemma Transport.set_time_time_sig_num (t : Transport) (time : Rat) (sp : Int) :
    (t.set_time time sp).time_sig_num = t.time_sig_num := rfl

lemma Transport.set_time_time_sig_den (t : Transport) (time : Rat) (sp : Int) :
    (t.set_time time sp).time_sig_den = t.time_sig_den := rfl

/-- A positive time signature makes the bar length positive. -/
lemma Transport.beats_per_bar_pos (t : Transport) (hnum : 0 < t.time_sig_num)
    (hden : 0 < t.time_sig_den) : 0 < t.beats_per_bar := by
  unfold Transport.beats_per_bar
  have h1 : (0 : Rat) < (t.time_sig_num : Rat) := by exact_mod_cast hnum
  have h2 : (0 : Rat) < (t.time_sig_den : Rat) := by exact_mod_cast hden
  positivity

/-- A `set_time` call to a sample position at or past the current one never
moves the beat position backwards (tempo and sample rate nonnegative). -/
lemma Transport.set_time_beats_mono (t : Transport) (time : Rat) (sp : Int)
    (hsp : t.sample_count ≤ sp) (hsr : 0 < t.sample_rate) (htempo : 0 ≤ t.tempo) :
    t.current_beats ≤ (t.set_time time sp).current_beats := by
  unfold Transport.current_beats Transport.set_time
  dsimp only
  split
  · have hd : (0 : Rat) ≤ ((sp - t.sample_count : Int) : Rat) := by
      exact_mod_cast sub_nonneg.mpr hsp
    have h60 : (0 : Rat) < 60 * t.sample_rate := by positivity
    have : 0 ≤ ((sp - t.sample_count : Int) : Rat) * t.tempo / (60 * t.sample_rate) :=
      div_nonneg (mul_nonneg hd htempo) h60.le
    linarith
  · exact le_refl _

/-- The bar-tracking invariants hold of any transport state whose bar length
is positive: the bar position and the bar start sum to the beat position, the
bar position lies in `[0, beats_per_bar)`, and the bar start is at most the
beat position. -/
lemma Transport.bar_invariants (t : Transport) (hbpb : 0 < t.beats_per_bar) :
    t.current_bar_beats + t.current_bar_start_beats = t.current_beats ∧
    0 ≤ t.current_bar_beats ∧ t.current_bar_beats < t.beats_per_bar ∧
    t.current_bar_start_beats ≤ t.current_beats := by
  have hne : t.beats_per_bar ≠ 0 := ne_of_gt hbpb
  have hfloor_le : t.current_bar_start_beats ≤ t.current_beats := by
    unfold Transport.current_bar_start_beats Transport.current_beats
    calc t.beats_per_bar * ⌊t.beat_count / t.beats_per_bar⌋
        ≤ t.beats_per_bar * (t.beat_count / t.beats_per_bar) :=
          mul_le_mul_of_nonneg_left (Int.floor_le _) hbpb.le
      _ = t.beat_count := mul_div_cancel₀ _ hne
  have hfloor_lt : t.current_beats < t.current_bar_start_beats + t.beats_per_bar := by
    unfold Transport.current_bar_start_beats Transport.current_beats
    have h1 : t.beat_count / t.beats_per_bar < ⌊t.beat_count / t.beats_per_bar⌋ + 1 :=
      Int.lt_floor_add_one _
    have h2 : t.beats_per_bar * (t.beat_count / t.beats_per_bar) <
        t.beats_per_bar * (⌊t.beat_count / t.beats_per_bar⌋ + 1) :=
      mul_lt_mul_of_pos_left h1 hbpb
    rw [mul_div_cancel₀ _ hne] at h2
    linarith [h2]
  refine ⟨?_, ?_, ?_, hfloor_le⟩
  · unfold Transport.current_bar_beats Transport.current_beats
    ring
  · unfold Transport.current_bar_beats
    have := hfloor_le
    unfold Transport.current_beats at this
    linarith
  · unfold Transport.current_bar_beats
    unfold Transport.current_beats at hfloor_lt
    linarith

/-! ## Theorems for the claims -/

/-- C1 (counterexample): the export-then-apply round trip fails on the code.
`ProcessorState::serialize` returns the empty byte vector even for a
non-empty bundle, and `deserialize` of the serialized bytes returns `false`
(failure) instead of succeeding and reconstructing the bundle. -/
theorem C1_serialize_roundtrip_fails :
    (((ProcessorState.empty.set_program 3).set_bypass true).add_parameter_change 1
        (1/2)).serialize = [] ∧
    ((((ProcessorState.empty.set_program 3).set_bypass true).add_parameter_change 1
        (1/2)).deserialize
      ((((ProcessorState.empty.set_program 3).set_bypass true).add_parameter_change 1
        (1/2)).serialize)).1 = false :=
  ⟨rfl, rfl⟩

/-- C1 (amended): byte-level serialization is not implemented — `serialize`
returns the empty byte vector for every state and `deserialize` rejects every
input, leaving the state untouched — while the in-memory bundle itself round
trips: the setters record exactly the program, bypass, parameter and property
sequences read back by the accessors, and the realtime copy `RtState`
carries over the bypass flag and the parameter changes. -/
theorem C1_state_bundle_roundtrip :
    (∀ s : ProcessorState, s.serialize = []) ∧
    (∀ (s : ProcessorState) (bytes : List Nat), s.deserialize bytes = (false, s)) ∧
    (∀ (s : ProcessorState) (p : Int), (s.set_program p).program = some p) ∧
    (∀ (s : ProcessorState) (b : Bool), (s.set_bypass b).bypassed = some b) ∧
    (∀ (s : ProcessorState) (id : Nat) (v : Rat),
        (s.add_parameter_change id v).parameters = s.parameters ++ [(id, v)]) ∧
    (∀ (s : ProcessorState) (id : Nat) (v : String),
        (s.add_property_change id v).properties = s.properties ++ [(id, v)]) ∧
    (∀ s : ProcessorState, (RtState.ofProcessorState s).bypassed = s.bypassed ∧
        (RtState.ofProcessorState s).parameter_changes = s.parameters) :=
  ⟨fun _ => rfl, fun _ _ => rfl, fun _ _ => rfl, fun _ _ => rfl,
   fun _ _ _ => rfl, fun _ _ _ => rfl, fun _ => ⟨rfl, rfl⟩⟩

/-- C10: every mutating `MidiController` command returns `ControlStatus::OK`
to the caller unconditionally, whatever status the underlying dispatcher
operation (run later, as a posted lambda event) produces. -/
theorem C10_midi_commands_return_ok :
    (∀ (t c p : Int) (raw : Bool) (ks rs : MidiDispatcherStatus),
        (MidiController.connect_kbd_input_to_track t c p raw ks rs).returned =
          ControlStatus.OK) ∧
    (∀ (t c p : Int) (s : MidiDispatcherStatus),
        (MidiController.connect_kbd_output_from_track t c p s).returned = ControlStatus.OK) ∧
    (∀ (pr pa c po cc : Int) (lo hi : Rat) (rel : Bool) (s : MidiDispatcherStatus),
        (MidiController.connect_cc_to_parameter pr pa c po cc lo hi rel s).returned =
          ControlStatus.OK) ∧
    (∀ (pr c po : Int) (s : MidiDispatcherStatus),
        (MidiController.connect_pc_to_processor pr c po s).returned = ControlStatus.OK) ∧
    (∀ (t c p : Int) (raw : Bool) (ks rs : MidiDispatcherStatus),
        (MidiController.disconnect_kbd_input t c p raw ks rs).returned = ControlStatus.OK) ∧
    (∀ (t c p : Int) (s : MidiDispatcherStatus),
        (MidiController.disconnect_kbd_output t c p s).returned = ControlStatus.OK) ∧
    (∀ (pr c po cc : Int) (s : MidiDispatcherStatus),
        (MidiController.disconnect_cc pr c po cc s).returned = ControlStatus.OK) ∧
    (∀ (pr c po : Int) (s : MidiDispatcherStatus),
        (MidiController.disconnect_pc pr c po s).returned = ControlStatus.OK) ∧
    (∀ (pr : Int) (s : MidiDispatcherStatus),
        (MidiController.disconnect_all_cc_from_processor pr s).returned = ControlStatus.OK) ∧
    (∀ (pr : Int) (s : MidiDispatcherStatus),
        (MidiController.disconnect_all_pc_from_processor pr s).returned = ControlStatus.OK) :=
  ⟨fun _ _ _ _ _ _ => rfl, fun _ _ _ _ => rfl, fun _ _ _ _ _ _ _ _ _ => rfl,
   fun _ _ _ _ => rfl, fun _ _ _ _ _ _ => rfl, fun _ _ _ _ => rfl,
   fun _ _ _ _ _ => rfl, fun _ _ _ _ => rfl, fun _ _ => rfl, fun _ _ => rfl⟩

/-- C3: with the transport at sample rate 32768, tempo 120, 4/4 time and
playing, setting the time to one second (sample position 32768) yields
current beats 2.0, bar beats 2.0 and bar start beats 0.0; setting it to 2.5
seconds (sample position 81920) yields current beats 5.0, bar beats 1.0 and
bar start beats 4.0. -/
theorem C3_timeline_44 :
    c3_transport_1.current_beats = 2 ∧
    c3_transport_1.current_bar_beats = 2 ∧
    c3_transport_1.current_bar_start_beats = 0 ∧
    c3_transport_2.current_beats = 5 ∧
    c3_transport_2.current_bar_beats = 1 ∧
    c3_transport_2.current_bar_start_beats = 4 := by
  norm_num [c3_transport_1, c3_transport_2, c3_transport_0, Transport.init,
    Transport.set_time, Transport.set_sample_rate, Transport.set_tempo,
    Transport.set_time_signature, Transport.set_playing_mode, Transport.current_beats,
    Transport.current_bar_beats, Transport.current_bar_start_beats,
    Transport.beats_per_bar, PlayingMode.is_playing]

/-- C4: along any sequence of `set_time` calls whose sample positions are
monotonically non-decreasing (starting from the transport's current sample
position), the beat position is monotonically non-decreasing, and after
every call the bar position plus the bar start equals the beat position,
with the bar position in `[0, beats_per_bar)` and the bar start at most the
beat position. -/
theorem C4_timeline_invariants (t0 : Transport) (calls : List (Rat × Int))
    (hsr : 0 < t0.sample_rate) (htempo : 0 ≤ t0.tempo)
    (hnum : 0 < t0.time_sig_num) (hden : 0 < t0.time_sig_den)
    (hmono : nondecreasing_from t0.sample_count (calls.map Prod.snd) = true) :
    List.Chain' (· ≤ ·) ((t0 :: t0.run calls).map Transport.current_beats) ∧
    ∀ s ∈ t0.run calls,
      s.current_bar_beats + s.current_bar_start_beats = s.current_beats ∧
      0 ≤ s.current_bar_beats ∧ s.current_bar_beats < s.beats_per_bar ∧
      s.current_bar_start_beats ≤ s.current_beats := by
  induction calls generalizing t0 with
  | nil =>
    simp only [Transport.run, List.map, List.chain'_singleton, List.not_mem_nil,
      IsEmpty.forall_iff, implies_true, and_true]
  | cons c rest ih =>
    obtain ⟨time, sp⟩ := c
    rw [List.map_cons] at hmono
    have hstep : t0.sample_count ≤ sp := by
      by_contra h
      simp only [nondecreasing_from, if_neg h] at hmono
      exact Bool.false_ne_true hmono
    have hmono' : nondecreasing_from sp (rest.map Prod.snd) = true := by
      simpa only [nondecreasing_from, if_pos hstep] using hmono
    have hrun : t0.run ((time, sp) :: rest) =
        (t0.set_time time sp) :: (t0.set_time time sp).run rest := rfl
    have hsr' : 0 < (t0.set_time time sp).sample_rate := by
      rw [Transport.set_time_sample_rate]; exact hsr
    have htempo' : 0 ≤ (t0.set_time time sp).tempo := by
      rw [Transport.set_time_tempo]; exact htempo
    have hnum' : 0 < (t0.set_time time sp).time_sig_num := by
      rw [Transport.set_time_time_sig_num]; exact hnum
    have hden' : 0 < (t0.set_time time sp).time_sig_den := by
      rw [Transport.set_time_time_sig_den]; exact hden
    have hmono'' : nondecreasing_from (t0.set_time time sp).sample_count
        (rest.map Prod.snd) = true := by
      rw [Transport.set_time_sample_count]; exact hmono'
    obtain ⟨hchain, hinv⟩ := ih (t0.set_time time sp) hsr' htempo' hnum' hden' hmono''
    constructor
    · rw [hrun, List.map_cons, List.map_cons, List.chain'_cons]
      rw [List.map_cons] at hchain
      exact ⟨Transport.set_time_beats_mono t0 time sp hstep hsr htempo, hchain⟩
    · intro s hs
      rw [hrun, List.mem_cons] at hs
      rcases hs with hs | hs
      · subst hs
        exact Transport.bar_invariants _ (Transport.beats_per_bar_pos _ hnum' hden')
      · exact hinv s hs

/-- C4 witness: the hypotheses and conclusion at the concrete transport of
the test fixture and two calls with non-decreasing sample positions. -/
theorem C4_timeline_invariants_witness :
    (0 : Rat) < (Transport.init 48000).sample_rate ∧
    (0 : Rat) ≤ (Transport.init 48000).tempo ∧
    (0 : Int) < (Transport.init 48000).time_sig_num ∧
    (0 : Int) < (Transport.init 48000).time_sig_den ∧
    nondecreasing_from (Transport.init 48000).sample_count
      (([((1 : Rat), (64 : Int)), (2, 128)]).map Prod.snd) = true ∧
    (List.Chain' (· ≤ ·)
      ((Transport.init 48000 ::
        (Transport.init 48000).run [((1 : Rat), (64 : Int)), (2, 128)]).map
          Transport.current_beats) ∧
     ∀ s ∈ (Transport.init 48000).run [((1 : Rat), (64 : Int)), (2, 128)],
       s.current_bar_beats + s.current_bar_start_beats = s.current_beats ∧
       0 ≤ s.current_bar_beats ∧ s.current_bar_beats < s.beats_per_bar ∧
       s.current_bar_start_beats ≤ s.current_beats) :=
  ⟨by decide, by decide, by decide, by decide, by decide,
   C4_timeline_invariants (Transport.init 48000) [((1 : Rat), (64 : Int)), (2, 128)]
     (by decide) (by decide) (by decide) (by decide) (by decide)⟩

/-- C5: `current_state_change` after a `set_time` call is `STARTING` exactly
when the effective playing flag flips from stopped to playing at that call,
`STOPPING` exactly when it flips from playing to stopped, and `UNCHANGED`
otherwise; a second `set_time` call with no intervening mode change always
reads `UNCHANGED`, so the latched value persists for exactly one block. -/
theorem C5_state_change_latch (t : Transport) (time : Rat) (sp : Int) :
    ((t.set_time time sp).current_state_change = PlayStateChange.STARTING ↔
      (t.playmode.is_playing = false ∧ t.new_playmode.is_playing = true)) ∧
    ((t.set_time time sp).current_state_change = PlayStateChange.STOPPING ↔
      (t.playmode.is_playing = true ∧ t.new_playmode.is_playing = false)) ∧
    ((t.set_time time sp).current_state_change = PlayStateChange.UNCHANGED ↔
      t.playmode.is_playing = t.new_playmode.is_playing) ∧
    ∀ (time2 : Rat) (sp2 : Int),
      ((t.set_time time sp).set_time time2 sp2).current_state_change =
        PlayStateChange.UNCHANGED := by
  obtain ⟨sr, tempo, n, d, pm, npm, spc, sc, bc⟩ := t
  cases pm <;> cases npm <;>
    simp [Transport.set_time, Transport.current_state_change, PlayingMode.is_playing]

/-- C6: an event emitted by an inner processor and forwarded on the track's
event output FIFO carries the track's own processor id, every other field
unchanged; in particular a note-on keeps its sample offset, channel, note
and velocity. -/
theorem C6_event_retagging :
    (∀ (track_id : Nat) (e : RtEvent),
      (Track.output_event track_id e).processor_id = track_id) ∧
    (∀ (track_id src offset ch note : Nat) (vel : Rat),
      Track.forward_block_events track_id [RtEvent.note_on src offset ch note vel] =
        [RtEvent.note_on track_id offset ch note vel]) :=
  ⟨fun track_id e => by cases e <;> rfl, fun _ _ _ _ _ _ => rfl⟩

lemma Track.add_before_of_mem (l1 l2 : List Nat) (p b : Nat) (hb : b ∉ l1) :
    Track.add_before (l1 ++ b :: l2) p b = some (l1 ++ p :: b :: l2) := by
  induction l1 with
  | nil => simp [Track.add_before]
  | cons a l1 ih =>
    have hab : a ≠ b := fun h => hb (h ▸ List.mem_cons_self a l1)
    have hb' : b ∉ l1 := fun h => hb (List.mem_cons_of_mem a h)
    simp only [List.cons_append, Track.add_before, if_neg hab, List.append_eq, ih hb',
      Option.map_some']

lemma Track.remove_of_mem (chain : List Nat) (id : Nat) (h : id ∈ chain) :
    Track.remove chain id = (true, chain.erase id) := by
  induction chain with
  | nil => cases h
  | cons q rest ih =>
    by_cases hq : q = id
    · subst hq
      simp [Track.remove, List.erase_cons_head]
    · have hmem : id ∈ rest := by
        rcases List.mem_cons.mp h with h1 | h1
        · exact absurd h1.symm hq
        · exact h1
      have hne : (q == id) = false := beq_false_of_ne hq
      simp [Track.remove, if_neg hq, ih hmem, List.erase_cons, hne]

lemma Track.remove_of_not_mem (chain : List Nat) (id : Nat) (h : id ∉ chain) :
    Track.remove chain id = (false, chain) := by
  induction chain with
  | nil => rfl
  | cons q rest ih =>
    have hq : q ≠ id := fun he => h (he ▸ List.mem_cons_self q rest)
    have h' : id ∉ rest := fun hm => h (List.mem_cons_of_mem q hm)
    simp [Track.remove, if_neg hq, ih h']

/-- C7: on the track's ordered chain, `add(p)` appends `p`; `add(p,
before_id)` with `before_id` present inserts `p` immediately before that
processor; `remove(id)` with `id` present returns success and removes
exactly that processor; `remove(id)` with `id` absent returns not-found and
leaves the chain unchanged. -/
theorem C7_chain_editing (chain l1 l2 : List Nat) (p before_id id_in id_out : Nat)
    (hb : before_id ∉ l1) (hin : id_in ∈ chain) (hout : id_out ∉ chain) :
    Track.add chain p = chain ++ [p] ∧
    Track.add_before (l1 ++ before_id :: l2) p before_id =
      some (l1 ++ p :: before_id :: l2) ∧
    Track.remove chain id_in = (true, chain.erase id_in) ∧
    Track.remove chain id_out = (false, chain) :=
  ⟨rfl, Track.add_before_of_mem l1 l2 p before_id hb,
   Track.remove_of_mem chain id_in hin, Track.remove_of_not_mem chain id_out hout⟩

/-- C7 witness: the scenario of the repository test TestAddAndRemove — a
chain holding processor 7, processor 9 added before it, processor 7 removed,
and the unknown id 1234567 reported not-found with the chain unchanged. -/
theorem C7_chain_editing_witness :
    ((7 : Nat) ∉ ([] : List Nat)) ∧ ((7 : Nat) ∈ [(7 : Nat)]) ∧
    ((1234567 : Nat) ∉ [(7 : Nat)]) ∧
    (Track.add [7] 9 = [7] ++ [9] ∧
     Track.add_before ([] ++ 7 :: []) 9 7 = some ([] ++ 9 :: 7 :: []) ∧
     Track.remove [7] 7 = (true, ([(7 : Nat)]).erase 7) ∧
     Track.remove [7] 1234567 = (false, [7])) :=
  ⟨by decide, by decide, by decide,
   C7_chain_editing [7] [] [] 9 7 7 1234567 (by decide) (by decide) (by decide)⟩

/-- C8 (counterexample): a block size that is not a multiple of the chunk
size is not rejected with an invalid-arguments status: the callback skips
the block (zero chunk renders) and returns 0 to JACK — the very same code it
returns for a valid block size — so no error status is observable. -/
theorem C8_no_invalid_arguments_status :
    JackFrontend.internal_process_callback 96 = (0, []) ∧
    (JackFrontend.internal_process_callback 96).1 =
      (JackFrontend.internal_process_callback 128).1 := by
  decide

lemma chunk_offsets_chain (n : Nat) :
    List.Chain' (fun a b => b = a + AUDIO_CHUNK_SIZE) (JackFrontend.chunk_offsets n) := by
  unfold JackFrontend.chunk_offsets
  rw [List.chain'_map]
  cases hk : n / AUDIO_CHUNK_SIZE with
  | zero => simp
  | succ j =>
    rw [List.chain'_range_succ]
    intro m _
    simp [AUDIO_CHUNK_SIZE]
    ring

/-- C8 (amended): an `nframes` below 64 or not a multiple of 64 makes the
callback skip the block entirely — zero chunk renders, return code 0, only a
warning logged, no invalid-arguments status; a valid multiple is split into
`nframes / 64` chunk renders at back-to-back offsets 0, 64, 128, … in
order. -/
theorem C8_chunk_splitting (n_bad n_ok : Nat)
    (hbad : n_bad < 64 ∨ n_bad % 64 ≠ 0) (h64 : 64 ≤ n_ok) (hmod : n_ok % 64 = 0) :
    JackFrontend.internal_process_callback n_bad = (0, []) ∧
    JackFrontend.internal_process_callback n_ok = (0, JackFrontend.chunk_offsets n_ok) ∧
    (JackFrontend.chunk_offsets n_ok).length = n_ok / AUDIO_CHUNK_SIZE ∧
    List.Chain' (fun a b => b = a + AUDIO_CHUNK_SIZE) (JackFrontend.chunk_offsets n_ok) := by
  refine ⟨?_, ?_, ?_, chunk_offsets_chain n_ok⟩
  · unfold JackFrontend.internal_process_callback
    rw [if_pos hbad]
  · unfold JackFrontend.internal_process_callback
    rw [if_neg]
    push_neg
    exact ⟨h64, hmod⟩
  · simp [JackFrontend.chunk_offsets]

/-- C8 witness: the hypotheses and conclusion at the concrete block sizes 96
(skipped) and 128 (split into two chunk renders). -/
theorem C8_chunk_splitting_witness :
    ((96 : Nat) < 64 ∨ (96 : Nat) % 64 ≠ 0) ∧ ((64 : Nat) ≤ 128) ∧ ((128 : Nat) % 64 = 0) ∧
    (JackFrontend.internal_process_callback 96 = (0, []) ∧
     JackFrontend.internal_process_callback 128 = (0, JackFrontend.chunk_offsets 128) ∧
     (JackFrontend.chunk_offsets 128).length = 128 / AUDIO_CHUNK_SIZE ∧
     List.Chain' (fun a b => b = a + AUDIO_CHUNK_SIZE) (JackFrontend.chunk_offsets 128)) :=
  ⟨by decide, by decide, by decide,
   C8_chunk_splitting 96 128 (by decide) (by decide) (by decide)⟩

/-- C9 (counterexample): a parameter change targeting a bypassed processor
is not discarded: `process_event` applies it to the control port immediately
— bypass is never checked there — and the new value persists through the
bypassed `process_audio` call.  Starting from a bypassed wrapper with all
control values 0, the value of port 3 after the block is 7/10, not 0. -/
theorem C9_param_change_not_discarded :
    (((Lv2Wrapper.mk true PlayState.RUNNING (fun _ => 0) [] []).process_event
        (RtEvent.float_parameter_change 9 0 3 (7/10))).process_audio [1, 1]
        (fun ins _ => ins)).1.control_values 3 = 7/10 ∧
    ((7 : Rat)/10) ≠ 0 := by
  constructor
  · rfl
  · norm_num

/-- C9 (amended): while bypassed, every `process_audio` call forwards its
input through the bypass path and empties the incoming realtime event queue,
discarding every queued event — and only keyboard events are ever queued;
parameter changes are not queued: `process_event` applies them to the
plugin's control port immediately, bypassed or not. -/
theorem C9_bypass_flushes_queue (w : Lv2Wrapper) (in_buffer : List Rat)
    (plugin_run : List Rat → List RtEvent → List Rat)
    (hbyp : w.bypassed = true) :
    (w.process_audio in_buffer plugin_run).1.incoming_event_queue = [] ∧
    (w.process_audio in_buffer plugin_run).2 = some in_buffer ∧
    (w.process_audio in_buffer plugin_run).1.delivered_midi = w.delivered_midi ∧
    (w.process_audio in_buffer plugin_run).1.control_values = w.control_values ∧
    (∀ e : RtEvent, e.is_keyboard = true →
      (w.process_event e).incoming_event_queue = w.incoming_event_queue ++ [e]) ∧
    (∀ (pid off id : Nat) (v : Rat),
      (w.process_event (RtEvent.float_parameter_change pid off id v)).control_values id = v) := by
  refine ⟨?_, ?_, ?_, ?_, ?_, ?_⟩
  · simp [Lv2Wrapper.process_audio, hbyp]
  · simp [Lv2Wrapper.process_audio, hbyp]
  · simp [Lv2Wrapper.process_audio, hbyp]
  · simp [Lv2Wrapper.process_audio, hbyp]
  · intro e he
    cases e <;> simp_all [Lv2Wrapper.process_event, RtEvent.is_keyboard]
  · intro pid off id v
    simp [Lv2Wrapper.process_event]

/-- C9 witness: the amended statement at a concrete bypassed wrapper with
one queued note-on, a two-sample input and an identity plugin-run stand-in. -/
theorem C9_bypass_flushes_queue_witness :
    (Lv2Wrapper.mk true PlayState.RUNNING (fun _ => 0)
        [RtEvent.note_on 9 0 1 48 1] []).bypassed = true ∧
    (((Lv2Wrapper.mk true PlayState.RUNNING (fun _ => 0)
        [RtEvent.note_on 9 0 1 48 1] []).process_audio [1, 1]
        (fun ins _ => ins)).1.incoming_event_queue = [] ∧
     ((Lv2Wrapper.mk true PlayState.RUNNING (fun _ => 0)
        [RtEvent.note_on 9 0 1 48 1] []).process_audio [1, 1]
        (fun ins _ => ins)).2 = some [1, 1] ∧
     ((Lv2Wrapper.mk true PlayState.RUNNING (fun _ => 0)
        [RtEvent.note_on 9 0 1 48 1] []).process_audio [1, 1]
        (fun ins _ => ins)).1.delivered_midi =
       (Lv2Wrapper.mk true PlayState.RUNNING (fun _ => 0)
        [RtEvent.note_on 9 0 1 48 1] []).delivered_midi ∧
     ((Lv2Wrapper.mk true PlayState.RUNNING (fun _ => 0)
        [RtEvent.note_on 9 0 1 48 1] []).process_audio [1, 1]
        (fun ins _ => ins)).1.control_values =
       (Lv2Wrapper.mk true PlayState.RUNNING (fun _ => 0)
        [RtEvent.note_on 9 0 1 48 1] []).control_values ∧
     (∀ e : RtEvent, e.is_keyboard = true →
       ((Lv2Wrapper.mk true PlayState.RUNNING (fun _ => 0)
        [RtEvent.note_on 9 0 1 48 1] []).process_event e).incoming_event_queue =
         (Lv2Wrapper.mk true PlayState.RUNNING (fun _ => 0)
        [RtEvent.note_on 9 0 1 48 1] []).incoming_event_queue ++ [e]) ∧
     (∀ (pid off id : Nat) (v : Rat),
       ((Lv2Wrapper.mk true PlayState.RUNNING (fun _ => 0)
        [RtEvent.note_on 9 0 1 48 1] []).process_event
          (RtEvent.float_parameter_change pid off id v)).control_values id = v)) :=
  ⟨rfl,
   C9_bypass_flushes_queue
     (Lv2Wrapper.mk true PlayState.RUNNING (fun _ => 0)
       [RtEvent.note_on 9 0 1 48 1] []) [1, 1] (fun ins _ => ins) rfl⟩

/-- C2 (counterexample): the spec's pan law does not describe
`calc_l_r_gain` as the repository's own unit test pins it down.  At gain 1
and pan −0.5 the law yields a right gain of `sin(π/8)·√2 ≈ 0.5412`, while
the test `TesPanAndGainCalculation` asserts the right gain is exactly 0.5
(idealised `EXPECT_FLOAT_EQ`), so the law fails the test. -/
theorem C2_pan_law_contradicts_test : ¬ TesPanAndGainCalculation calc_l_r_gain := by
  intro h
  have hlast : (calc_l_r_gain 1 (-0.5)).2 = 0.5 := h.2.2.2.2.2
  have hval : (calc_l_r_gain 1 (-0.5)).2 =
      Real.sqrt (2 - Real.sqrt 2) / 2 * Real.sqrt 2 := by
    simp only [calc_l_r_gain]
    rw [show ((-0.5 : Real) + 1) * Real.pi / 4 = Real.pi / 8 by ring,
      Real.sin_pi_div_eight]
    ring
  rw [hval] at hlast
  have hs : Real.sqrt 2 * Real.sqrt 2 = 2 := Real.mul_self_sqrt (by norm_num)
  have hs0 : (0 : Real) ≤ Real.sqrt 2 := Real.sqrt_nonneg 2
  have hslt : Real.sqrt 2 < 3/2 := by
    rw [show (3 : Real)/2 = Real.sqrt ((3/2)^2) from (Real.sqrt_sq (by norm_num)).symm]
    exact Real.sqrt_lt_sqrt (by norm_num) (by norm_num)
  have hsub : (0 : Real) ≤ 2 - Real.sqrt 2 := by nlinarith
  have hu : Real.sqrt (2 - Real.sqrt 2) * Real.sqrt (2 - Real.sqrt 2) = 2 - Real.sqrt 2 :=
    Real.mul_self_sqrt hsub
  have h1 : Real.sqrt (2 - Real.sqrt 2) * Real.sqrt 2 = 1 := by
    nlinarith [hlast]
  have h2 : (2 - Real.sqrt 2) * 2 = 1 := by
    nlinarith [h1, hu, hs]
  linarith

/-- C2 (amended): the spec's cos/sin pan law holds at the center and the
hard pans — pan 0 gives unity gain `(g, g)` in both channels, pan +1 gives
`(0, g√2)` and pan −1 gives `(g√2, 0)` — and at hard right the live channel
lies within the test tolerance of 1.41; but the law does not extend to
intermediate pans, where the repository test demands the values of a linear
crossfade (left ≈ 1.2 and right = 0.5 at gain 1, pan −0.5) instead. -/
theorem C2_pan_law_center_and_hard (g : Real) :
    calc_l_r_gain g 0 = (g, g) ∧
    calc_l_r_gain g 1 = (0, g * Real.sqrt 2) ∧
    calc_l_r_gain g (-1) = (g * Real.sqrt 2, 0) ∧
    |(calc_l_r_gain 1 1).2 - 1.41| ≤ 0.01 := by
  have hs : Real.sqrt 2 * Real.sqrt 2 = 2 := Real.mul_self_sqrt (by norm_num)
  refine ⟨?_, ?_, ?_, ?_⟩
  · simp only [calc_l_r_gain, Prod.mk.injEq]
    rw [show ((0 : Real) + 1) * Real.pi / 4 = Real.pi / 4 by ring,
      Real.cos_pi_div_four, Real.sin_pi_div_four]
    constructor <;> linear_combination (g / 2) * hs
  · simp only [calc_l_r_gain, Prod.mk.injEq]
    rw [show ((1 : Real) + 1) * Real.pi / 4 = Real.pi / 2 by ring,
      Real.cos_pi_div_two, Real.sin_pi_div_two]
    constructor <;> ring
  · simp only [calc_l_r_gain, Prod.mk.injEq]
    rw [show ((-1 : Real) + 1) * Real.pi / 4 = 0 by ring, Real.cos_zero, Real.sin_zero]
    constructor <;> ring
  · have hval : (calc_l_r_gain 1 1).2 = Real.sqrt 2 := by
      simp only [calc_l_r_gain]
      rw [show ((1 : Real) + 1) * Real.pi / 4 = Real.pi / 2 by ring, Real.sin_pi_div_two]
      ring
    have h1 : (1.41 : Real) ≤ Real.sqrt 2 := by
      rw [show (1.41 : Real) = Real.sqrt (1.41 ^ 2) from (Real.sqrt_sq (by norm_num)).symm]
      exact Real.sqrt_le_sqrt (by norm_num)
    have h2 : Real.sqrt 2 ≤ 1.42 := by
      rw [show (1.42 : Real) = Real.sqrt (1.42 ^ 2) from (Real.sqrt_sq (by norm_num)).symm]
      exact Real.sqrt_le_sqrt (by norm_num)
    rw [hval, abs_le]
    constructor <;> nlinarith

end Sushi
